import Mathlib

/-!
Verification development for the bot-bet repository.

Shallow embedding of the navigation/interaction engine
(`src/bot_bet/automation/visual_navigator.py`), the hybrid miner agent
(`src/bot_bet/automation/miner_agent.py`) and the database setup module
(`src/bot_bet/database/setup_db.py`).

Modelling conventions:
- Python functions become Lean functions; `print` calls become entries in a
  `logs : List String` trace field (message text abbreviated to stable ASCII
  tags, since no property depends on the exact wording).
- Code that may raise is threaded through `Except Unit`; a `try/except`
  becomes a `match` on the `Except` value.
- Randomness (`random.uniform`, `random.randint`, `random.choice`) is
  modelled by deterministic functions of a natural-number seed whose range
  matches the library guarantee.
- Playwright page queries are modelled by oracle functions stored in a
  `NavPage` structure; a query that raises is an `Except.error`.
-/

set_option linter.unusedVariables false

namespace BotBet

/-- Model of `random.uniform(lo, hi)`: a rational in `[lo, hi]` determined by
a seed, mirroring the library guarantee that the draw lies in the interval. -/
def randUniform (lo hi : ℚ) (seed : Nat) : ℚ :=
  lo + (hi - lo) * ((seed % 1001 : Nat) : ℚ) / 1000

/-- Model of `random.randint(lo, hi)` (inclusive bounds). -/
def randInt (lo hi seed : Nat) : Nat :=
  lo + seed % (hi - lo + 1)

/-- Model of `random.choice([a, b])`. -/
def randChoice2 (a b : Int) (seed : Nat) : Int :=
  if seed % 2 = 0 then a else b

-- ===================== visual_navigator: data model =====================

/-- An on-page element handle; only its visibility matters to the engine. -/
structure Element where
  visible : Bool
deriving DecidableEq, Repr

/-- Oracle model of a Playwright `Page`. `getByText t` models
`page.get_by_text(t, exact=False)` returning its match list;
`getByRoleButton t` models `page.get_by_role("button", name=t, exact=True)`;
`Except.error` models the query raising. `cssVisible sel` models
`page.locator(sel).first.is_visible()`; `inputVisible` models whether the
search input becomes visible within its wait. -/
structure NavPage where
  getByText : String → Except Unit (List Element)
  getByRoleButton : String → Except Unit (List Element)
  cssVisible : String → Bool
  inputVisible : Bool

/-- The per-candidate check of `safe_find_text`
(`visual_navigator.py:160-167`): run the fuzzy text query inside `try`; if
it raises, or matches nothing, or its first match is not visible, the
candidate misses (`none`); otherwise the first match is the hit. -/
def textHit (page : NavPage) (t : String) : Option Element :=
  match page.getByText t with
  | Except.error _ => none
  | Except.ok [] => none
  | Except.ok (e :: _) => if e.visible then some e else none

/-- The candidate loop of `safe_find_text` (`visual_navigator.py:160-168`). -/
def safe_find_text_go (page : NavPage) : List String → Option Element
  | [] => none
  | t :: rest =>
    match textHit page t with
    | some e => some e
    | none => safe_find_text_go page rest

/-- `safe_find_text` (`visual_navigator.py:158-168`). The `timeout`
parameter is accepted, as in the source, but the body never reads it. -/
def safe_find_text (page : NavPage) (texts : List String) (timeout : Nat) :
    Option Element :=
  safe_find_text_go page texts

/-- The per-candidate check of the `accept_cookies` loop
(`visual_navigator.py:175-182`): role-qualified exact-name lookup inside a
`try`, miss on exception / empty match / invisible first match. -/
def roleHit (page : NavPage) (t : String) : Option Element :=
  match page.getByRoleButton t with
  | Except.error _ => none
  | Except.ok [] => none
  | Except.ok (e :: _) => if e.visible then some e else none

/-- Modelled from the spec (section 4.3) and claim C2, NOT from the source:
the resolution algorithm the claim describes, which for each candidate first
attempts the role-qualified exact-name lookup and only then falls back to the
fuzzy text-contains lookup. Used solely to compare the claimed algorithm with
the actual `safe_find_text`. -/
def resolve_claimed (page : NavPage) : List String → Option Element
  | [] => none
  | t :: rest =>
    match roleHit page t with
    | some e => some e
    | none =>
      match textHit page t with
      | some e => some e
      | none => resolve_claimed page rest

-- ===================== visual_navigator: smart_click =====================

/-- Bounding box of a target, as returned by `locator.bounding_box()`. -/
structure BBox where
  x : ℚ
  y : ℚ
  width : ℚ
  height : ℚ
deriving DecidableEq, Repr

/-- Fault-injection environment for one `smart_click` call: the outcome of
`bounding_box()` (may raise, may be absent), the seeds of the four random
draws, and whether the primary and the forced click succeed. -/
structure ClickEnv where
  boxCall : Except Unit (Option BBox)
  jitterSeedX : Nat
  jitterSeedY : Nat
  stepsSeed : Nat
  pauseSeed : Nat
  primaryOk : Bool
  scrollSeed : Nat
  forcedOk : Bool

/-- Observable trace of one `smart_click` call: `mouse.move` targets (with
step counts), `asyncio.sleep` durations, number of plain `locator.click()`
attempts issued, `mouse.wheel` vertical offsets, timeouts of forced click
attempts, log lines, and the returned boolean. -/
structure ClickTrace where
  moves : List (ℚ × ℚ × Nat)
  pauses : List ℚ
  primaryClicks : Nat
  scrolls : List Int
  forcedClicks : List Nat
  logs : List String
  result : Bool
deriving DecidableEq

def retryLog (label : String) : String :=
  "[RETRY] Fallo clic en " ++ label
def recoveredLog (label : String) : String :=
  "[RETRY] Recuperacion exitosa para " ++ label
def clickFailLog (label : String) : String :=
  "[FAIL] No se pudo recuperar el clic en " ++ label

/-- The `except` branch of `smart_click` (`visual_navigator.py:141-156`):
scroll by `random.choice([-200, 200])`, sleep 1 s, then one forced click with
a 2000 ms timeout; success returns `true`, a second failure returns `false`.
The arguments carry the trace accumulated in the `try` block. -/
def smart_click_recovery (env : ClickEnv) (label : String)
    (moves : List (ℚ × ℚ × Nat)) (pauses : List ℚ) (pclicks : Nat) :
    ClickTrace :=
  let sc := randChoice2 (-200) 200 env.scrollSeed
  if env.forcedOk then
    ⟨moves, pauses ++ [1], pclicks, [sc], [2000],
      [retryLog label, recoveredLog label], true⟩
  else
    ⟨moves, pauses ++ [1], pclicks, [sc], [2000],
      [retryLog label, clickFailLog label], false⟩

/-- `smart_click` (`visual_navigator.py:123-156`): in the `try` block, read
the bounding box (a raise jumps straight to recovery); if a box is present,
move the pointer to its center with `random.uniform(-5, 5)` jitter over
`random.randint(10, 20)` steps; sleep `random.uniform(0.2, 0.5)`; issue the
primary click. A primary-click raise enters the recovery branch. -/
def smart_click (env : ClickEnv) (label : String) : ClickTrace :=
  match env.boxCall with
  | Except.error _ => smart_click_recovery env label [] [] 0
  | Except.ok ob =>
    let moves :=
      match ob with
      | some box =>
        [(box.x + box.width / 2 + randUniform (-5) 5 env.jitterSeedX,
          box.y + box.height / 2 + randUniform (-5) 5 env.jitterSeedY,
          randInt 10 20 env.stepsSeed)]
      | none => []
    let p := randUniform (1 / 5) (1 / 2) env.pauseSeed
    if env.primaryOk then
      ⟨moves, [p], 1, [], [], [], true⟩
    else
      smart_click_recovery env label moves [p] 1

-- ===================== visual_navigator: flow steps =====================

def SELECTORS_cookies : List String :=
  ["Aceptar", "Accept", "Allow all", "OK", "Acepto", "Allow",
   "Aceptar cookies"]
def SELECTORS_search_trigger : List String :=
  ["Buscar", "Search", "Busqueda", "Buscar eventos"]
def SELECTORS_bet_builder : List String :=
  ["Bet Builder", "Crear Apuesta", "Tiros"]
def SELECTORS_player_section : List String :=
  ["Player", "Jugador"]
def SELECTORS_shots_target : List String :=
  ["Tiros a puerta", "Shots on Target", "Tiros a porteria"]

def SEARCH_QUERY : String := "Levante"

/-- Log entry of `human_pause(label)` (`visual_navigator.py:53-58`). -/
def humanLog (label : String) : String :=
  "[HUMAN] Pausa " ++ label

/-- Trace of one flow step: its log lines and the `smart_click` calls it
performed. -/
structure StepTrace where
  logs : List String
  clicks : List ClickTrace

/-- The candidate loop of `accept_cookies` (`visual_navigator.py:175-182`):
first candidate whose role-qualified lookup yields a visible button is
clicked and the function returns; a full miss logs the info line. -/
def accept_cookies_go (page : NavPage) (ce : ClickEnv) :
    List String → StepTrace
  | [] => ⟨["[INFO] No se detecto banner de cookies."], []⟩
  | t :: rest =>
    match roleHit page t with
    | some _ =>
      let ct := smart_click ce "cookies"
      ⟨["[STEP] Cookies encontradas: " ++ t] ++ ct.logs, [ct]⟩
    | none => accept_cookies_go page ce rest

/-- `accept_cookies` (`visual_navigator.py:172-183`). -/
def accept_cookies (page : NavPage) (ce : ClickEnv) : StepTrace :=
  let t := accept_cookies_go page ce SELECTORS_cookies
  ⟨humanLog "check cookies" :: t.logs, t.clicks⟩

/-- Click environments for the two `smart_click` calls of
`perform_search`. -/
structure SearchEnv where
  triggerClick : ClickEnv
  resultClick : ClickEnv

def css_triggers : List String :=
  ["button[aria-label*=Buscar]", ".search-button", "ion-icon[name=search]"]

/-- The CSS fallback loop of `perform_search`
(`visual_navigator.py:191-197`): first selector whose first match is visible
becomes the trigger. -/
def find_css_trigger (page : NavPage) : List String → Option Element
  | [] => none
  | sel :: rest =>
    if page.cssVisible sel then some ⟨true⟩ else find_css_trigger page rest

/-- `perform_search` (`visual_navigator.py:185-229`): resolve the search
trigger via `safe_find_text`, falling back to CSS selectors; if absent, log
a warning and return. Otherwise click it; if the search input never becomes
visible the inner `try` raises and is caught (error line logged); otherwise
type the query, then resolve and click the first result, logging a warning
when no result appears. -/
def perform_search (page : NavPage) (env : SearchEnv) : StepTrace :=
  let base := [humanLog "pre search"]
  let trig :=
    match safe_find_text page SELECTORS_search_trigger 3000 with
    | some e => some e
    | none => find_css_trigger page css_triggers
  match trig with
  | none => ⟨base ++ ["[WARN] No se encontro boton de busqueda."], []⟩
  | some _ =>
    let ct := smart_click env.triggerClick "search_trigger"
    let afterTrig := base ++ ct.logs ++ [humanLog "wait input"]
    if page.inputVisible then
      let typed := ["[STEP] Busqueda lanzada: " ++ SEARCH_QUERY]
      match safe_find_text page [SEARCH_QUERY] 5000 with
      | some _ =>
        let rt := smart_click env.resultClick "search_result"
        ⟨afterTrig ++ typed ++ [humanLog "found result"] ++ rt.logs,
          [ct, rt]⟩
      | none =>
        ⟨afterTrig ++ typed ++
          ["[WARN] No se encontraron resultados en la lista."], [ct]⟩
    else
      ⟨afterTrig ++ ["[ERROR] Fallo en flujo de input busqueda"], [ct]⟩

/-- `navigate_match_tabs` (`visual_navigator.py:231-243`): resolve and click
the Bet Builder tab, then the Player section. A missing target is skipped
with no log line at all (the `if bb:` / `if ps:` bodies are simply not
entered). -/
def navigate_match_tabs (page : NavPage) (bbClick psClick : ClickEnv) :
    StepTrace :=
  let part1 : StepTrace :=
    match safe_find_text page SELECTORS_bet_builder 5000 with
    | some _ =>
      let ct := smart_click bbClick "bet_builder_tab"
      ⟨ct.logs ++ [humanLog "tab switch"], [ct]⟩
    | none => ⟨[], []⟩
  let part2 : StepTrace :=
    match safe_find_text page SELECTORS_player_section 5000 with
    | some _ =>
      let ct := smart_click psClick "player_section_tab"
      ⟨ct.logs ++ [humanLog "section load"], [ct]⟩
    | none => ⟨[], []⟩
  ⟨part1.logs ++ part2.logs, part1.clicks ++ part2.clicks⟩

/-- `verify_market` (`visual_navigator.py:245-252`): only logs whether the
target market text is visible. -/
def verify_market (page : NavPage) : StepTrace :=
  match safe_find_text page SELECTORS_shots_target 4000 with
  | some _ => ⟨["[SUCCESS] Mercado LOCALIZADO."], []⟩
  | none => ⟨["[INFO] Mercado objetivo no disponible en este evento."], []⟩

-- ===================== visual_navigator: run_flow =====================

/-- Outcome of the initial `page.goto`: success, a `PWTimeoutError` (caught
by the inner `except`, flow continues), or any other exception (propagates
to the outer `except` of `run_flow`). -/
inductive GotoRes where
  | ok
  | timeout
  | fatal
deriving DecidableEq, Repr

/-- Fault-injection environment for one `run_flow` run. -/
structure FlowEnv where
  launchOk : Bool
  page : NavPage
  goto : GotoRes
  cookieClick : ClickEnv
  search : SearchEnv
  bbClick : ClickEnv
  psClick : ClickEnv

/-- Observable trace of one `run_flow` run: log lines, number of sessions
(browsers) created, number of `browser.close()` calls, and whether the
terminal success line (the DONE state) was reached. `run_flow` is a total
function: every exception of the body is absorbed by its `except` clause, so
no exception escapes to the caller. -/
structure FlowTrace where
  logs : List String
  created : Nat
  closes : Nat
  done : Bool

/-- `run_flow` (`visual_navigator.py:254-277`): launch inside `try` (a
launch failure reaches the outer `except` with `browser` still `None`, so
`finally` closes nothing); `goto` with only `PWTimeoutError` caught (any
other navigation exception reaches the outer `except`, and `finally` closes
the created browser); then the four steps in order and the terminal success
line; `finally` closes the browser exactly once whenever it was created. -/
def run_flow (env : FlowEnv) : FlowTrace :=
  if env.launchOk then
    match env.goto with
    | GotoRes.fatal =>
      ⟨["[CRITICAL] Error no controlado"], 1, 1, false⟩
    | g =>
      let warn :=
        if g = GotoRes.timeout then ["[WARN] Timeout en carga inicial"]
        else []
      let s1 := accept_cookies env.page env.cookieClick
      let s2 := perform_search env.page env.search
      let s3 := navigate_match_tabs env.page env.bbClick env.psClick
      let s4 := verify_market env.page
      ⟨["[BOT] Iniciando navegacion"] ++ warn ++ s1.logs ++ s2.logs ++
        s3.logs ++ s4.logs ++ ["[BOT] Sesion finalizada correctamente."],
        1, 1, true⟩
  else
    ⟨["[CRITICAL] Error no controlado"], 0, 0, false⟩

-- ===================== miner_agent: JSON model =====================

/-- JSON values, as produced by `json.loads`. Number lexemes are kept as
strings: the engine never computes with them. -/
inductive Json where
  | null
  | bool (b : Bool)
  | num (lit : String)
  | str (s : String)
  | arr (xs : List Json)
  | obj (kvs : List (String × Json))

def lbraceChar : Char := Char.ofNat 123
def rbraceChar : Char := Char.ofNat 125

def jsonWs (c : Char) : Bool :=
  c = ' ' || c = Char.ofNat 9 || c = Char.ofNat 10 || c = Char.ofNat 13

def skipWs : List Char → List Char
  | [] => []
  | c :: cs => if jsonWs c then skipWs cs else c :: cs

def hexVal (c : Char) : Option Nat :=
  if '0' ≤ c ∧ c ≤ '9' then some (c.toNat - 48)
  else if 'a' ≤ c ∧ c ≤ 'f' then some (c.toNat - 87)
  else if 'A' ≤ c ∧ c ≤ 'F' then some (c.toNat - 55)
  else none

def escChar (c : Char) : Option Char :=
  if c = '"' then some '"'
  else if c = Char.ofNat 92 then some (Char.ofNat 92)
  else if c = '/' then some '/'
  else if c = 'b' then some (Char.ofNat 8)
  else if c = 'f' then some (Char.ofNat 12)
  else if c = 'n' then some (Char.ofNat 10)
  else if c = 'r' then some (Char.ofNat 13)
  else if c = 't' then some (Char.ofNat 9)
  else none

/-- String-body scanner, called after an opening quote: returns the decoded
characters and the input remaining after the closing quote. -/
def scanStr : Nat → List Char → Option (List Char × List Char)
  | 0, _ => none
  | _, [] => none
  | fuel + 1, c :: cs =>
    if c = '"' then some ([], cs)
    else if c = Char.ofNat 92 then
      match cs with
      | [] => none
      | e :: cs2 =>
        if e = 'u' then
          match cs2 with
          | a :: b :: c3 :: d :: cs3 =>
            match hexVal a, hexVal b, hexVal c3, hexVal d with
            | some ha, some hb, some hc, some hd =>
              match scanStr fuel cs3 with
              | some (body, rest) =>
                some (Char.ofNat (ha * 4096 + hb * 256 + hc * 16 + hd)
                  :: body, rest)
              | none => none
            | _, _, _, _ => none
          | _ => none
        else
          match escChar e with
          | some ec =>
            match scanStr fuel cs2 with
            | some (body, rest) => some (ec :: body, rest)
            | none => none
          | none => none
    else
      match scanStr fuel cs with
      | some (body, rest) => some (c :: body, rest)
      | none => none

def isDigit (c : Char) : Bool := '0' ≤ c && c ≤ '9'

def takeDigits : List Char → List Char × List Char
  | [] => ([], [])
  | c :: cs =>
    if isDigit c then
      let p := takeDigits cs
      (c :: p.1, p.2)
    else ([], c :: cs)

/-- Integer part of a JSON number: `0`, or a nonzero digit followed by
digits. -/
def scanIntPart : List Char → Option (List Char × List Char)
  | [] => none
  | c :: cs =>
    if c = '0' then some (['0'], cs)
    else if isDigit c then
      let p := takeDigits cs
      some (c :: p.1, p.2)
    else none

/-- Optional fraction part; a dot not followed by a digit makes the number
malformed. -/
def scanFrac : List Char → Option (List Char × List Char)
  | [] => some ([], [])
  | c :: cs =>
    if c = '.' then
      match cs with
      | [] => none
      | d :: _ =>
        if isDigit d then
          let p := takeDigits cs
          some ('.' :: p.1, p.2)
        else none
    else some ([], c :: cs)

/-- Optional exponent part. -/
def scanExp : List Char → Option (List Char × List Char)
  | [] => some ([], [])
  | c :: cs =>
    if c = 'e' ∨ c = 'E' then
      match cs with
      | [] => none
      | s :: cs2 =>
        if s = '+' ∨ s = '-' then
          match cs2 with
          | [] => none
          | d :: _ =>
            if isDigit d then
              let p := takeDigits cs2
              some (c :: s :: p.1, p.2)
            else none
        else if isDigit s then
          let p := takeDigits cs
          some (c :: p.1, p.2)
        else none
    else some ([], c :: cs)

/-- JSON number lexeme (strict grammar, as `json.loads` accepts). -/
def scanNumber (cs : List Char) : Option (List Char × List Char) :=
  let sg : List Char × List Char :=
    match cs with
    | '-' :: rest => (['-'], rest)
    | _ => ([], cs)
  match scanIntPart sg.2 with
  | none => none
  | some (ip, cs2) =>
    match scanFrac cs2 with
    | none => none
    | some (fp, cs3) =>
      match scanExp cs3 with
      | none => none
      | some (ep, cs4) => some (sg.1 ++ ip ++ fp ++ ep, cs4)

mutual

/-- Fueled recursive-descent JSON value parser. -/
def parseVal : Nat → List Char → Option (Json × List Char)
  | 0, _ => none
  | fuel + 1, cs =>
    match skipWs cs with
    | [] => none
    | c :: rest =>
      if c = lbraceChar then parseObjBody fuel (skipWs rest)
      else if c = '[' then parseArrBody fuel (skipWs rest)
      else if c = '"' then
        match scanStr (rest.length + 1) rest with
        | some (body, r2) => some (Json.str (String.mk body), r2)
        | none => none
      else if c = 't' then
        match rest with
        | 'r' :: 'u' :: 'e' :: r2 => some (Json.bool true, r2)
        | _ => none
      else if c = 'f' then
        match rest with
        | 'a' :: 'l' :: 's' :: 'e' :: r2 => some (Json.bool false, r2)
        | _ => none
      else if c = 'n' then
        match rest with
        | 'u' :: 'l' :: 'l' :: r2 => some (Json.null, r2)
        | _ => none
      else
        match scanNumber (c :: rest) with
        | some (lex, r2) => some (Json.num (String.mk lex), r2)
        | none => none

/-- Array body, entered after the opening bracket and whitespace skip. -/
def parseArrBody : Nat → List Char → Option (Json × List Char)
  | 0, _ => none
  | fuel + 1, cs =>
    match cs with
    | ']' :: rest => some (Json.arr [], rest)
    | _ =>
      match parseVal fuel cs with
      | none => none
      | some (v, r1) => parseArrRest fuel [v] r1

/-- Comma-separated continuation of an array; `acc` is reversed. -/
def parseArrRest : Nat → List Json → List Char → Option (Json × List Char)
  | 0, _, _ => none
  | fuel + 1, acc, cs =>
    match skipWs cs with
    | ']' :: rest => some (Json.arr acc.reverse, rest)
    | ',' :: rest =>
      match parseVal fuel rest with
      | none => none
      | some (v, r1) => parseArrRest fuel (v :: acc) r1
    | _ => none

/-- Object body, entered after the opening brace and whitespace skip. -/
def parseObjBody : Nat → List Char → Option (Json × List Char)
  | 0, _ => none
  | fuel + 1, cs =>
    match cs with
    | [] => none
    | c :: rest =>
      if c = rbraceChar then some (Json.obj [], rest)
      else if c = '"' then
        match scanStr (rest.length + 1) rest with
        | some (key, r1) =>
          match skipWs r1 with
          | ':' :: r2 =>
            match parseVal fuel r2 with
            | none => none
            | some (v, r3) => parseObjRest fuel [(String.mk key, v)] r3
          | _ => none
        | none => none
      else none

/-- Comma-separated continuation of an object; `acc` is reversed. -/
def parseObjRest : Nat → List (String × Json) → List Char →
    Option (Json × List Char)
  | 0, _, _ => none
  | fuel + 1, acc, cs =>
    match skipWs cs with
    | [] => none
    | c :: rest =>
      if c = rbraceChar then some (Json.obj acc.reverse, rest)
      else if c = ',' then
        match skipWs rest with
        | '"' :: r1 =>
          match scanStr (r1.length + 1) r1 with
          | some (key, r2) =>
            match skipWs r2 with
            | ':' :: r3 =>
              match parseVal fuel r3 with
              | none => none
              | some (v, r4) =>
                parseObjRest fuel ((String.mk key, v) :: acc) r4
            | _ => none
          | none => none
        | _ => none
      else none

end

/-- Model of Python `json.loads`: parse one value, require only whitespace
after it; `none` models `json.JSONDecodeError`. -/
def json_loads (s : String) : Option Json :=
  let cs := s.toList
  match parseVal (2 * cs.length + 2) cs with
  | some (v, rest) => if skipWs rest = [] then some v else none
  | none => none

-- ===================== miner_agent: run_miner =====================

/-- The agent terminal result, as read from `history.final_result()` (or
`str(history)`): either a Python `str`, or a non-string value of which the
code keeps only the string form and the type name
(`miner_agent.py:252-263`). -/
inductive AgentRes where
  | textual (s : String)
  | structured (strForm : String) (typeName : String)

/-- Content of one output artifact: either the JSON document passed to
`json.dump`, or plain text. -/
inductive Artifact where
  | jsonDoc (j : Json)
  | textDoc (s : String)

def json_out_path : String := "data/extracted_odds.json"
def txt_out_path : String := "data/extracted_odds.txt"

/-- The result-handling block of `run_miner` (`miner_agent.py:256-283`),
the `ExtractionResultSink.ingest` of the spec: a textual result goes
through `json.loads` inside `try` — success dumps the parsed value to the
JSON artifact and returns it; `json.JSONDecodeError` writes the raw text to
the text artifact and returns the raw-fallback dict. A non-string result is
wrapped as a string-form/type-tag dict and dumped to the JSON artifact. -/
def ingest : AgentRes → Json × List (String × Artifact)
  | AgentRes.textual s =>
    match json_loads s with
    | some j => (j, [(json_out_path, Artifact.jsonDoc j)])
    | none =>
      (Json.obj [("raw_output", Json.str s)],
        [(txt_out_path, Artifact.textDoc s)])
  | AgentRes.structured sf tn =>
    let d := Json.obj [("result", Json.str sf), ("type", Json.str tn)]
    (d, [(json_out_path, Artifact.jsonDoc d)])

/-- Fault-injection environment for one `run_miner` run: whether the
`channel="chrome"` launch succeeds, whether the `channel="msedge"` fallback
launch succeeds, and the agent outcome (`Except.error` models the agent
framework raising during the handoff). -/
structure MinerEnv where
  chromeOk : Bool
  edgeOk : Bool
  agentRun : Except Unit AgentRes

/-- Observable outcome of one `run_miner` run. `result` is `Except.error`
when an exception escapes `run_miner` to its caller, otherwise the returned
Python value (`none` for Python `None`). `attempts` lists the engine
channels passed to `p.chromium.launch`. -/
structure MinerOut where
  result : Except Unit (Option Json)
  attempts : List String
  created : Nat
  closes : Nat
  writes : List (String × Artifact)

/-- The `try/except/finally` body of `run_miner` after a successful launch
(`miner_agent.py:214-293`): `safe_go_to` absorbs its own errors; an agent
exception is caught by the `except` clause which returns `None`; the
`finally` clause closes the browser exactly once. -/
def run_miner_with_browser (env : MinerEnv) (attempts : List String) :
    MinerOut :=
  match env.agentRun with
  | Except.error _ => ⟨Except.ok none, attempts, 1, 1, []⟩
  | Except.ok r =>
    let p := ingest r
    ⟨Except.ok (some p.1), attempts, 1, 1, p.2⟩

/-- `run_miner` (`miner_agent.py:125-293`): try the `chrome` channel; on
failure try the `msedge` channel inside the `except` clause — that second
launch is NOT inside any `try`, so when it also fails the exception
propagates out of `run_miner` with no browser created, nothing closed, and
nothing written. -/
def run_miner (url : String) (env : MinerEnv) : MinerOut :=
  if env.chromeOk then
    run_miner_with_browser env ["chrome"]
  else if env.edgeOk then
    run_miner_with_browser env ["chrome", "msedge"]
  else
    ⟨Except.error (), ["chrome", "msedge"], 0, 0, []⟩

/-- Python `str.strip` whitespace set (ASCII portion). -/
def pyWs (c : Char) : Bool :=
  c = ' ' || c = Char.ofNat 9 || c = Char.ofNat 10 || c = Char.ofNat 13 ||
  c = Char.ofNat 11 || c = Char.ofNat 12

/-- Model of Python `str.strip()`. -/
def pyStrip (s : String) : String :=
  String.mk (((s.toList.dropWhile pyWs).reverse.dropWhile pyWs).reverse)

/-- Observable outcome of `main` (`miner_agent.py:296-329`). -/
structure MainOut where
  created : Nat
  calledMiner : Bool
  result : Except Unit (Option Json)

/-- `main` (`miner_agent.py:296-329`): strip the raw input; an empty result
short-circuits (logs and returns) before `run_miner` is ever called, so no
session is constructed; otherwise run the miner. -/
def main_entry (raw : String) (env : MinerEnv) : MainOut :=
  let url := pyStrip raw
  if url = "" then ⟨0, false, Except.ok none⟩
  else
    let m := run_miner url env
    ⟨m.created, true, m.result⟩

/-- Modelled from the spec (section 4.7) and claim C6, NOT from the source:
the strict structural shape `object with match, market, and a players list
of name/line/odd entries` that the claim says gates `ExtractionRecord`
production. Used solely to compare the claimed gate with the actual code. -/
def strictRecordShape : Json → Bool
  | Json.obj kvs =>
    (kvs.lookup "match").isSome && (kvs.lookup "market").isSome &&
    (match kvs.lookup "players" with
     | some (Json.arr ps) =>
       ps.all (fun p =>
         match p with
         | Json.obj pk =>
           (pk.lookup "name").isSome && (pk.lookup "line").isSome &&
           (pk.lookup "odd").isSome
         | _ => false)
     | _ => false)
  | _ => false

-- ===================== setup_db =====================

/-- Fault-injection environment for one `initialize_database` run: whether
`os.makedirs` succeeds (its failure is an `OSError`, which the
`except Error` clause of `create_connection` does NOT catch), whether
`sqlite3.connect` plus the pragma succeed, and whether each schema statement
and the commit succeed (their failures are `sqlite3.Error`). -/
structure DbEnv where
  makedirsOk : Bool
  connectOk : Bool
  matchesOk : Bool
  oddsOk : Bool
  idx1Ok : Bool
  idx2Ok : Bool
  commitOk : Bool

/-- `create_connection` (`setup_db.py:46-63`): `Except.error` models a
non-`sqlite3.Error` exception propagating, `Except.ok none` models the
caught `sqlite3.Error` path returning `None`, `Except.ok (some ())` a live
connection. -/
def create_connection (env : DbEnv) : Except Unit (Option Unit) :=
  if !env.makedirsOk then Except.error ()
  else if env.connectOk then Except.ok (some ()) else Except.ok none

def schemaErrLog : String := "[DB][ERROR] Fallo creacion de esquema"

/-- `create_schema` (`setup_db.py:101-119`): execute the statements in
order inside one `try`; the first `sqlite3.Error` is caught and logged, and
the function returns normally either way — errors are swallowed. Returns
the emitted log lines. -/
def create_schema (env : DbEnv) : List String :=
  if !env.matchesOk then
    ["[DB] Creando tabla matches...", schemaErrLog]
  else if !env.oddsOk then
    ["[DB] Creando tabla matches...", "[DB] Creando tabla odds...",
      schemaErrLog]
  else if !env.idx1Ok then
    ["[DB] Creando tabla matches...", "[DB] Creando tabla odds...",
      "[DB] Creando indices...", schemaErrLog]
  else if !env.idx2Ok then
    ["[DB] Creando tabla matches...", "[DB] Creando tabla odds...",
      "[DB] Creando indices...", schemaErrLog]
  else if !env.commitOk then
    ["[DB] Creando tabla matches...", "[DB] Creando tabla odds...",
      "[DB] Creando indices...", schemaErrLog]
  else
    ["[DB] Creando tabla matches...", "[DB] Creando tabla odds...",
      "[DB] Creando indices...", "[DB] Esquema OK."]

/-- Result of one `initialize_database` run: the returned boolean (or a
propagated exception) and the log lines. -/
structure DbRun where
  result : Except Unit Bool
  logs : List String

/-- `initialize_database` (`setup_db.py:122-136`): `None` connection
returns `False`; otherwise `create_schema` runs (its errors swallowed), the
connection is closed, and the function returns `True` unconditionally. -/
def initialize_database (env : DbEnv) : DbRun :=
  match create_connection env with
  | Except.error e => ⟨Except.error e, []⟩
  | Except.ok none => ⟨Except.ok false, ["[DB][ERROR] Fallo la conexion"]⟩
  | Except.ok (some _) =>
    ⟨Except.ok true, ["[DB] Conexion establecida"] ++ create_schema env⟩

-- ===================== concrete environments =====================

/-- A page on which every query raises nothing and matches nothing. -/
def emptyPage : NavPage :=
  { getByText := fun _ => Except.ok []
    getByRoleButton := fun _ => Except.ok []
    cssVisible := fun _ => false
    inputVisible := false }

/-- A click environment in which everything succeeds. -/
def idleClickEnv : ClickEnv :=
  ⟨Except.ok none, 0, 0, 0, 0, true, 0, true⟩

/-- A page on which the role-qualified exact-name lookup for `Aceptar`
yields a visible button but the fuzzy text lookup matches nothing. -/
def c2Page : NavPage :=
  { getByText := fun _ => Except.ok []
    getByRoleButton := fun t =>
      if t = "Aceptar" then Except.ok [⟨true⟩] else Except.ok []
    cssVisible := fun _ => false
    inputVisible := false }

/-- A page on which the fuzzy text lookup hits (visibly) exactly for the
candidate string `b`. -/
def c2WitnessPage : NavPage :=
  { getByText := fun t =>
      if t = "b" then Except.ok [⟨true⟩] else Except.ok []
    getByRoleButton := fun _ => Except.ok []
    cssVisible := fun _ => false
    inputVisible := false }

/-- A click environment whose target has a bounding box and whose primary
and forced clicks both fail. -/
def c3Env : ClickEnv :=
  ⟨Except.ok (some ⟨0, 0, 10, 10⟩), 0, 0, 0, 0, false, 1, false⟩

/-- A flow environment with a successful launch, a successful initial
navigation, and a page on which no target is ever found — in particular the
cookie-consent target. -/
def c4Env : FlowEnv :=
  ⟨true, emptyPage, GotoRes.ok, idleClickEnv, ⟨idleClickEnv, idleClickEnv⟩,
    idleClickEnv, idleClickEnv⟩

/-- A miner environment in which both the chrome and the msedge launch
fail. -/
def c5Env : MinerEnv := ⟨false, false, Except.error ()⟩

/-- A second both-launches-fail miner environment (different agent field),
used to instantiate the amended C5 theorem. -/
def c5WitnessEnv : MinerEnv :=
  ⟨false, false, Except.ok (AgentRes.textual "x")⟩

/-- The exact agent terminal output of claim C6. -/
def c6Input : String :=
  "\x7b\"match\":\"Team A vs Team B\",\"market\":\"Shots on Target\",\"players\":[\x7b\"name\":\"X\",\"line\":\"+0.5\",\"odd\":\"2.50\"\x7d]\x7d"

/-- The JSON value `json.loads` produces for `c6Input`. -/
def c6Expected : Json :=
  Json.obj
    [("match", Json.str "Team A vs Team B"),
     ("market", Json.str "Shots on Target"),
     ("players", Json.arr
       [Json.obj
         [("name", Json.str "X"), ("line", Json.str "+0.5"),
          ("odd", Json.str "2.50")]])]

/-- A miner run whose agent answers with the text of claim C6. -/
def c6Env : MinerEnv := ⟨true, true, Except.ok (AgentRes.textual c6Input)⟩

/-- A miner run whose agent answers with the text of an empty JSON object,
which is valid JSON but not the strict record shape. -/
def c6BadEnv : MinerEnv :=
  ⟨true, true, Except.ok (AgentRes.textual "\x7b\x7d")⟩

/-- A miner run whose agent answers with claim C7 plain text. -/
def c7Env : MinerEnv :=
  ⟨true, true, Except.ok (AgentRes.textual "no data found")⟩

/-- A miner environment for the blank-input entry-point run of claim C8. -/
def c8Env : MinerEnv :=
  ⟨true, true, Except.ok (AgentRes.textual "irrelevant")⟩

-- ===================== theorems: randomness ranges =====================

theorem randUniform_mem (lo hi : ℚ) (h : lo ≤ hi) (s : Nat) :
    lo ≤ randUniform lo hi s ∧ randUniform lo hi s ≤ hi := by
  unfold randUniform
  have h0 : (0 : ℚ) ≤ ((s % 1001 : Nat) : ℚ) := by positivity
  have h1 : ((s % 1001 : Nat) : ℚ) ≤ 1000 := by
    have hlt : s % 1001 < 1001 := Nat.mod_lt _ (by omega)
    have h2 : (s % 1001 : Nat) ≤ 1000 := by omega
    exact_mod_cast h2
  constructor <;> nlinarith

theorem randInt_mem (lo hi seed : Nat) (h : lo ≤ hi) :
    lo ≤ randInt lo hi seed ∧ randInt lo hi seed ≤ hi := by
  unfold randInt
  have hlt : seed % (hi - lo + 1) < hi - lo + 1 := Nat.mod_lt _ (by omega)
  omega

theorem randChoice2_mem (a b : Int) (seed : Nat) :
    randChoice2 a b seed = a ∨ randChoice2 a b seed = b := by
  unfold randChoice2
  by_cases h : seed % 2 = 0 <;> simp [h]

-- ===================== claim theorems =====================

/-- C1: For every run of `run_flow` and every run of `run_miner` — under
any injected faults: launch failure, handled step failures, a fatal
navigation error mid-flow, or an agent-framework exception during the
handoff — the number of `browser.close()` calls equals the number of
sessions created, at most one session is created, so a created session is
closed exactly once on every exit path and never closed twice. -/
theorem c1_session_closed_exactly_once (fe : FlowEnv) (url : String)
    (me : MinerEnv) :
    (run_flow fe).closes = (run_flow fe).created ∧
    (run_flow fe).created ≤ 1 ∧
    (run_miner url me).closes = (run_miner url me).created ∧
    (run_miner url me).created ≤ 1 := by
  cases hl : fe.launchOk <;> cases hg : fe.goto <;>
    cases hc : me.chromeOk <;> cases he : me.edgeOk <;>
    cases ha : me.agentRun <;>
    simp [run_flow, run_miner, run_miner_with_browser, hl, hg, hc, he, ha]

/-- C9: The result of `safe_find_text` does not depend on its `timeout`
argument: the parameter is never read in the body. -/
theorem c9_timeout_unused (page : NavPage) (texts : List String)
    (t1 t2 : Nat) :
    safe_find_text page texts t1 = safe_find_text page texts t2 := rfl

/-- C10: `initialize_database` returns `True` exactly when
`create_connection` yields a live connection; every `sqlite3.Error` inside
`create_schema` is caught and swallowed there and never turns the result
into `False`. -/
theorem c10_initialize_database_iff_connection (env : DbEnv) :
    (initialize_database env).result = Except.ok true ↔
    create_connection env = Except.ok (some ()) := by
  cases hm : env.makedirsOk <;> cases hc : env.connectOk <;>
    simp [initialize_database, create_connection, hm, hc]

/-- Helper for C2: if candidate `k` is the first whose fuzzy text lookup
yields a visible first match, the loop returns that match and its result
already equals the result on the list truncated right after `k`. -/
theorem safe_find_text_go_hit (page : NavPage) (texts : List String)
    (k : Nat) (t : String) (e : Element)
    (hk : texts[k]? = some t) (hh : textHit page t = some e)
    (hb : ∀ j tj, j < k → texts[j]? = some tj → textHit page tj = none) :
    safe_find_text_go page texts = some e ∧
    safe_find_text_go page texts =
      safe_find_text_go page (texts.take (k + 1)) := by
  induction texts generalizing k with
  | nil => simp at hk
  | cons t0 rest ih =>
    cases k with
    | zero =>
      simp at hk
      subst hk
      simp [safe_find_text_go, hh]
    | succ n =>
      have h0 : textHit page t0 = none := hb 0 t0 (by omega) (by simp)
      have hk2 : rest[n]? = some t := by simpa using hk
      have hb2 : ∀ j tj, j < n → rest[j]? = some tj →
          textHit page tj = none := by
        intro j tj hj hjt
        exact hb (j + 1) tj (by omega) (by simpa using hjt)
      have hr := ih n hk2 hb2
      simpa [safe_find_text_go, h0] using hr

/-- Helper for C2: when every candidate misses, the loop returns `none`. -/
theorem safe_find_text_go_none (page : NavPage) (texts : List String)
    (h : ∀ t ∈ texts, textHit page t = none) :
    safe_find_text_go page texts = none := by
  induction texts with
  | nil => rfl
  | cons t0 rest ih =>
    have h0 := h t0 (by simp)
    simp [safe_find_text_go, h0]
    exact ih (fun t ht => h t (by simp [ht]))

/-- C2 counterexample: the claim says `safe_find_text` first attempts a
role-qualified exact-name lookup per candidate. On `c2Page` that lookup
yields a visible `Aceptar` button (the claimed algorithm, `resolve_claimed`,
returns it), yet `safe_find_text` returns `none`: the function never
performs the role-qualified lookup, so the claimed algorithm is not the one
implemented, and a candidate that is present and visible (via role) is not
returned. -/
theorem c2_counterexample :
    resolve_claimed c2Page ["Aceptar"] = some ⟨true⟩ ∧
    safe_find_text c2Page ["Aceptar"] 3000 = none := by
  constructor <;> rfl

/-- C2 amended: `safe_find_text` iterates candidates in list order using
only the fuzzy text-contains lookup (the role-qualified exact-name lookup is
a separate code path in `accept_cookies`); it returns the first match of the
first candidate whose lookup yields a visible first element, tries no
candidate after it (the result equals the result on the truncated list), and
returns `none` — without raising — when every candidate misses. -/
theorem c2_amended_text_only_resolution (page : NavPage) :
    (∀ texts k t e, texts[k]? = some t → textHit page t = some e →
      (∀ j tj, j < k → texts[j]? = some tj → textHit page tj = none) →
      safe_find_text page texts 3000 = some e ∧
      safe_find_text page texts 3000 =
        safe_find_text page (texts.take (k + 1)) 3000) ∧
    (∀ texts, (∀ t ∈ texts, textHit page t = none) →
      safe_find_text page texts 3000 = none) := by
  constructor
  · intro texts k t e hk hh hb
    exact safe_find_text_go_hit page texts k t e hk hh hb
  · intro texts h
    exact safe_find_text_go_none page texts h

/-- C2 witness: on `c2WitnessPage` with candidates `a`, `b`, `c` the unique
visible candidate sits at position 1; the theorem returns it and truncation
after position 1 does not change the result. -/
theorem c2_witness :
    safe_find_text c2WitnessPage ["a", "b", "c"] 3000 = some ⟨true⟩ ∧
    safe_find_text c2WitnessPage ["a", "b", "c"] 3000 =
      safe_find_text c2WitnessPage ["a", "b"] 3000 := by
  have h := (c2_amended_text_only_resolution c2WitnessPage).1
    ["a", "b", "c"] 1 "b" ⟨true⟩ (by rfl) (by rfl) ?_
  · exact h
  · intro j tj hj hjt
    have hj0 : j = 0 := by omega
    subst hj0
    simp at hjt
    subst hjt
    rfl

/-- C3: `smart_click` issues at most two physical click attempts per
invocation, for any target and any injected fault. When the target has a
bounding box, the single pointer move aims at the box center with jitter in
`[-5, 5]` px over 10 to 20 steps, and a pause in `[0.2, 0.5]` s precedes
the primary click. When the primary click throws, exactly one recovery runs:
a vertical scroll of `-200` or `200` px, a 1 s pause, and one forced click
with a 2000 ms timeout, whose outcome is the returned boolean — so when the
recovery also fails the call returns `false` instead of raising (the Lean
model is a total function: no exception escapes). -/
theorem c3_smart_click_at_most_two_attempts (env : ClickEnv)
    (label : String) :
    (smart_click env label).primaryClicks +
      (smart_click env label).forcedClicks.length ≤ 2 ∧
    (∀ box, env.boxCall = Except.ok (some box) →
      ∃ jx jy steps,
        (smart_click env label).moves =
          [(box.x + box.width / 2 + jx, box.y + box.height / 2 + jy,
            steps)] ∧
        -5 ≤ jx ∧ jx ≤ 5 ∧ -5 ≤ jy ∧ jy ≤ 5 ∧ 10 ≤ steps ∧ steps ≤ 20) ∧
    (∀ ob, env.boxCall = Except.ok ob → env.primaryOk = false →
      ∃ p,
        (smart_click env label).pauses = [p, 1] ∧
        1 / 5 ≤ p ∧ p ≤ 1 / 2 ∧
        (smart_click env label).primaryClicks = 1 ∧
        ((smart_click env label).scrolls = [-200] ∨
          (smart_click env label).scrolls = [200]) ∧
        (smart_click env label).forcedClicks = [2000] ∧
        (smart_click env label).result = env.forcedOk) ∧
    (env.primaryOk = false → env.forcedOk = false →
      (smart_click env label).result = false) ∧
    (∀ ob, env.boxCall = Except.ok ob → env.primaryOk = true →
      (smart_click env label).primaryClicks = 1 ∧
      (smart_click env label).forcedClicks = [] ∧
      (smart_click env label).result = true) := by
  refine ⟨?_, ?_, ?_, ?_, ?_⟩
  · cases hb : env.boxCall with
    | error e =>
      cases hf : env.forcedOk <;>
        simp [smart_click, smart_click_recovery, hb, hf]
    | ok ob =>
      cases hp : env.primaryOk <;> cases hf : env.forcedOk <;>
        simp [smart_click, smart_click_recovery, hb, hp, hf]
  · intro box hb
    refine ⟨randUniform (-5) 5 env.jitterSeedX,
      randUniform (-5) 5 env.jitterSeedY, randInt 10 20 env.stepsSeed,
      ?_, (randUniform_mem (-5) 5 (by norm_num) _).1,
      (randUniform_mem (-5) 5 (by norm_num) _).2,
      (randUniform_mem (-5) 5 (by norm_num) _).1,
      (randUniform_mem (-5) 5 (by norm_num) _).2,
      (randInt_mem 10 20 _ (by norm_num)).1,
      (randInt_mem 10 20 _ (by norm_num)).2⟩
    cases hp : env.primaryOk <;> cases hf : env.forcedOk <;>
      simp [smart_click, smart_click_recovery, hb, hp, hf]
  · intro ob hb hp
    refine ⟨randUniform (1 / 5) (1 / 2) env.pauseSeed, ?_,
      (randUniform_mem (1 / 5) (1 / 2) (by norm_num) _).1,
      (randUniform_mem (1 / 5) (1 / 2) (by norm_num) _).2, ?_, ?_, ?_, ?_⟩
    all_goals
      cases hf : env.forcedOk <;>
        simp [smart_click, smart_click_recovery, hb, hp, hf,
          randChoice2_mem (-200) 200 env.scrollSeed]
  · intro hp hf
    cases hb : env.boxCall <;>
      simp [smart_click, smart_click_recovery, hb, hp, hf]
  · intro ob hb hp
    simp [smart_click, hb, hp]

/-- C3 witness: a target with a bounding box whose primary and forced
clicks both fail yields at most two attempts and returns `false`. -/
theorem c3_witness :
    (smart_click c3Env "target").primaryClicks +
      (smart_click c3Env "target").forcedClicks.length ≤ 2 ∧
    (smart_click c3Env "target").result = false := by
  have h := c3_smart_click_at_most_two_attempts c3Env "target"
  exact ⟨h.1, h.2.2.2.1 rfl rfl⟩

/-- C4 counterexample: the claim says a missing target of any flow step
after INIT is logged. On a page with no targets at all, the tab-navigation
step (`navigate_match_tabs`) emits no log line for its missing Bet Builder
and Player targets — it skips them silently — although the flow still
advances and the same run reaches the terminal DONE state. -/
theorem c4_counterexample :
    (navigate_match_tabs emptyPage idleClickEnv idleClickEnv).logs = [] ∧
    (run_flow c4Env).done = true := by
  constructor <;> rfl

/-- C4 amended: for every flow environment whose launch succeeds and whose
initial navigation raises at most a timeout, the run reaches the terminal
DONE state whatever the page looks like — a missing target or failed
interaction in any step after INIT never aborts the flow (the cookie,
search and market steps log their misses; the tab-navigation step skips its
misses silently). `run_flow` is a total function in the model: no exception
escapes the orchestrator to the caller. -/
theorem c4_amended_flow_reaches_done (env : FlowEnv)
    (h1 : env.launchOk = true) (h2 : env.goto ≠ GotoRes.fatal) :
    (run_flow env).done = true := by
  cases hg : env.goto
  · simp [run_flow, h1, hg]
  · simp [run_flow, h1, hg]
  · simp [hg] at h2

/-- C4 witness: the all-targets-missing environment (in particular the
cookie-consent target is never found) still reaches DONE. -/
theorem c4_witness : (run_flow c4Env).done = true :=
  c4_amended_flow_reaches_done c4Env rfl (by decide)

/-- C5 counterexample: when both the chrome launch and the msedge fallback
launch fail, `run_miner` does NOT return none — the msedge launch sits in
the `except` clause outside any `try`, so its exception propagates to the
caller (modelled as `Except.error`). Both channels are attempted and no
output artifact is written. -/
theorem c5_counterexample :
    (run_miner "http://example" c5Env).result = Except.error () ∧
    (run_miner "http://example" c5Env).result ≠ Except.ok none ∧
    (run_miner "http://example" c5Env).writes = [] ∧
    (run_miner "http://example" c5Env).attempts = ["chrome", "msedge"] := by
  refine ⟨rfl, ?_, rfl, rfl⟩
  intro h
  simp [run_miner, c5Env] at h

/-- C5 amended: launching attempts the chrome channel and, on its failure,
exactly one named fallback channel (msedge); when both fail, the launch
exception propagates out of `run_miner` to its caller (the run raises
rather than returning none), no session is created, and no output artifact
is written. -/
theorem c5_amended_launch_failure_propagates (url : String)
    (env : MinerEnv) (h1 : env.chromeOk = false) (h2 : env.edgeOk = false) :
    (run_miner url env).result = Except.error () ∧
    (run_miner url env).attempts = ["chrome", "msedge"] ∧
    (run_miner url env).writes = [] ∧
    (run_miner url env).created = 0 := by
  simp [run_miner, h1, h2]

/-- C5 witness: a concrete both-launches-fail environment. -/
theorem c5_witness :
    (run_miner "u" c5WitnessEnv).result = Except.error () ∧
    (run_miner "u" c5WitnessEnv).attempts = ["chrome", "msedge"] ∧
    (run_miner "u" c5WitnessEnv).writes = [] ∧
    (run_miner "u" c5WitnessEnv).created = 0 :=
  c5_amended_launch_failure_propagates "u" c5WitnessEnv rfl rfl

/-- C6 counterexample: the claim says a textual agent result yields an
`ExtractionRecord` exactly when it passes the strict structural parse (an
object with `match`, `market` and a `players` list). The agent output
consisting of an empty JSON object is valid JSON but fails that structural
shape, yet the run returns it as a structured record and writes the
structured artifact: the code runs plain `json.loads` and performs no
structural validation. -/
theorem c6_counterexample :
    (run_miner "u" c6BadEnv).result = Except.ok (some (Json.obj [])) ∧
    (run_miner "u" c6BadEnv).writes =
      [(json_out_path, Artifact.jsonDoc (Json.obj []))] ∧
    strictRecordShape (Json.obj []) = false := by
  refine ⟨rfl, rfl, rfl⟩

/-- C6 amended: for every textual agent result that is valid JSON — with no
structural validation of `match`/`market`/`players` — `run_miner` returns
the parsed value and writes the structured artifact with exactly that
content. The claim-specific input is the witness instance. -/
theorem c6_amended_ingest_any_valid_json (url : String) (env : MinerEnv)
    (s : String) (j : Json)
    (hl : env.chromeOk = true ∨ (env.chromeOk = false ∧ env.edgeOk = true))
    (ha : env.agentRun = Except.ok (AgentRes.textual s))
    (hp : json_loads s = some j) :
    (run_miner url env).result = Except.ok (some j) ∧
    (run_miner url env).writes = [(json_out_path, Artifact.jsonDoc j)] := by
  rcases hl with h | hh
  · simp [run_miner, run_miner_with_browser, ingest, h, ha, hp]
  · simp [run_miner, run_miner_with_browser, ingest, hh.1, hh.2, ha, hp]

/-- C6 witness: the exact claim input yields the record with the single
player entry `name = X, line = +0.5, odd = 2.50` and the structured
artifact carries that content. -/
theorem c6_witness :
    (run_miner "u" c6Env).result = Except.ok (some c6Expected) ∧
    (run_miner "u" c6Env).writes =
      [(json_out_path, Artifact.jsonDoc c6Expected)] :=
  c6_amended_ingest_any_valid_json "u" c6Env c6Input c6Expected
    (Or.inl rfl) rfl (by rfl)

/-- C7: for every textual agent result whose parse fails
(`json.JSONDecodeError`), the run does not raise: it returns the
raw-fallback dict carrying the original text unchanged, and exactly one
artifact is written — the plain-text artifact with exactly that content,
and no structured artifact. -/
theorem c7_parse_failure_raw_fallback (url : String) (env : MinerEnv)
    (s : String)
    (hl : env.chromeOk = true ∨ (env.chromeOk = false ∧ env.edgeOk = true))
    (ha : env.agentRun = Except.ok (AgentRes.textual s))
    (hp : json_loads s = none) :
    (run_miner url env).result =
      Except.ok (some (Json.obj [("raw_output", Json.str s)])) ∧
    (run_miner url env).writes = [(txt_out_path, Artifact.textDoc s)] := by
  rcases hl with h | hh
  · simp [run_miner, run_miner_with_browser, ingest, h, ha, hp]
  · simp [run_miner, run_miner_with_browser, ingest, hh.1, hh.2, ha, hp]

/-- C7 witness: the agent output `no data found` is not valid JSON; the run
returns the raw fallback and writes only the text artifact with exactly
that content. -/
theorem c7_witness :
    (run_miner "u" c7Env).result =
      Except.ok (some (Json.obj [("raw_output",
        Json.str "no data found")])) ∧
    (run_miner "u" c7Env).writes =
      [(txt_out_path, Artifact.textDoc "no data found")] :=
  c7_parse_failure_raw_fallback "u" c7Env "no data found"
    (Or.inl rfl) rfl (by rfl)

/-- C8: an empty or blank (whitespace-only) raw input URL short-circuits
the entry point: `run_miner` is never called, no session is constructed,
and the run returns none immediately. -/
theorem c8_blank_url_short_circuit (raw : String) (env : MinerEnv)
    (h : raw.toList.all pyWs = true) :
    (main_entry raw env).created = 0 ∧
    (main_entry raw env).calledMiner = false ∧
    (main_entry raw env).result = Except.ok none := by
  have h1 : raw.toList.dropWhile pyWs = [] := by
    rw [List.dropWhile_eq_nil_iff]
    intro x hx
    exact List.all_eq_true.mp h x hx
  have hs : pyStrip raw = "" := by
    unfold pyStrip
    rw [h1]
    rfl
  simp [main_entry, hs]

/-- C8 witness: a whitespace-only input. -/
theorem c8_witness :
    (main_entry "  \t " c8Env).created = 0 ∧
    (main_entry "  \t " c8Env).calledMiner = false ∧
    (main_entry "  \t " c8Env).result = Except.ok none :=
  c8_blank_url_short_circuit "  \t " c8Env (by rfl)

end BotBet
